import Mathlib

/-!
Verification of the commute-dashboard data pipeline (`web/dashboard.py`).

The embedding models the pandas dataframe pipeline of `load_commute_time`,
the per-bucket aggregation of `get_average_commute_time` together with the
standard-deviation column added in `display_itinerary`, the error handling
of `display_itinerary`, and the tab-ordering function
`order_csv_files_by_config`.

Timestamps are modelled as minutes since 1970-01-01 00:00 UTC (`Nat`).
The `US/Eastern` zone conversion performed by `tz_convert` is modelled with
the post-2007 United States daylight-saving rule (daylight time from the
second Sunday of March, 07:00 UTC, to the first Sunday of November,
06:00 UTC; offset 240 minutes in summer, 300 in winter), which is the rule
the tz database applies to every date used in this development.  Durations
are modelled as rationals; the pandas `std` of a group is the square root
of the sample variance recorded in the `stdSq` field below.
-/

/-- Gregorian leap-year test. -/
def isLeap (y : Nat) : Bool := (y % 4 == 0 && y % 100 != 0) || (y % 400 == 0)

/-- Number of days in year `y`. -/
def yearLength (y : Nat) : Nat := if isLeap y then 366 else 365

/-- Days from 1970-01-01 to the first day of year `1970 + n`. -/
def daysBeforeYearAux : Nat → Nat
  | 0 => 0
  | n + 1 => daysBeforeYearAux n + yearLength (1970 + n)

/-- Days from 1970-01-01 to the first day of year `y`. -/
def daysBeforeYear (y : Nat) : Nat := daysBeforeYearAux (y - 1970)

/-- Number of days of month `m` (1-12) in year `y`. -/
def monthLength (y m : Nat) : Nat :=
  if m = 2 then (if isLeap y then 29 else 28)
  else if m = 4 ∨ m = 6 ∨ m = 9 ∨ m = 11 then 30
  else 31

/-- Days from the first day of year `y` to the first day of month `m`. -/
def daysBeforeMonth (y m : Nat) : Nat :=
  ((List.range (m - 1)).map (fun i => monthLength y (i + 1))).sum

/-- The UTC instant year-month-day hour:minute, in minutes since the epoch. -/
def mkUTC (y m d hh mi : Nat) : Nat :=
  (daysBeforeYear y + daysBeforeMonth y m + (d - 1)) * 1440 + hh * 60 + mi

/-- Weekday of a day index (days since 1970-01-01), with Monday = 0 and
Sunday = 6, the numbering pandas uses for `Series.dt.weekday`.
1970-01-01 was a Thursday. -/
def weekdayOfDays (d : Nat) : Nat := (d + 3) % 7

/-- Fuelled search for the year containing a day index. -/
def yearOfAux : Nat → Nat → Nat → Nat
  | 0, y, _ => y
  | fuel + 1, y, d => if d < yearLength y then y else yearOfAux fuel (y + 1) (d - yearLength y)

/-- Year containing day index `d`. -/
def yearOfDays (d : Nat) : Nat := yearOfAux d 1970 d

/-- Day-of-year (0-based) of March 1 in year `y`. -/
def marchFirstDoy (y : Nat) : Nat := if isLeap y then 60 else 59

/-- Day-of-year (0-based) of November 1 in year `y`. -/
def novFirstDoy (y : Nat) : Nat := if isLeap y then 305 else 304

/-- Day index of the second Sunday of March of year `y`. -/
def secondSundayMarch (y : Nat) : Nat :=
  let m1 := daysBeforeYear y + marchFirstDoy y
  m1 + (6 - weekdayOfDays m1) + 7

/-- Day index of the first Sunday of November of year `y`. -/
def firstSundayNov (y : Nat) : Nat :=
  let n1 := daysBeforeYear y + novFirstDoy y
  n1 + (6 - weekdayOfDays n1)

/-- UTC minute at which daylight saving time starts in year `y`
(02:00 eastern standard time = 07:00 UTC). -/
def dstStartUTC (y : Nat) : Nat := secondSundayMarch y * 1440 + 7 * 60

/-- UTC minute at which daylight saving time ends in year `y`
(02:00 eastern daylight time = 06:00 UTC). -/
def dstEndUTC (y : Nat) : Nat := firstSundayNov y * 1440 + 6 * 60

/-- Offset, in minutes, that `US/Eastern` lags behind UTC at UTC instant `t`:
240 during daylight saving time, 300 otherwise. -/
def easternOffset (t : Nat) : Nat :=
  let y := yearOfDays (t / 1440)
  if dstStartUTC y ≤ t ∧ t < dstEndUTC y then 240 else 300

/-- `tz_convert("US/Eastern")` on a UTC instant: local clock minutes. -/
def toEastern (t : Nat) : Nat := t - easternOffset t

/-- One parsed CSV row of a commute file: the `datetime` column already
parsed by `pd.to_datetime(..., utc=True)` to a UTC instant, and the numeric
`commute_time` column, in minutes. -/
structure RawRow where
  datetime : Nat
  commute_time : ℚ
deriving DecidableEq

/-- Zero-padded two-digit decimal rendering, as used by `strftime` for
the `%H` and `%M` fields. -/
def fmt2 (n : Nat) : String := if n < 10 then "0" ++ toString n else toString n

/-- `Series.dt.day_name()` for pandas weekday numbers (Monday = 0). -/
def dayName : Nat → String
  | 0 => "Monday"
  | 1 => "Tuesday"
  | 2 => "Wednesday"
  | 3 => "Thursday"
  | 4 => "Friday"
  | 5 => "Saturday"
  | _ => "Sunday"

/-- One row of the dataframe returned by `load_commute_time`: the original
columns plus the derived `hour_min` and `weekday` columns. -/
structure Sample where
  datetime : Nat
  commute_time : ℚ
  hour_min : String
  weekday : String
deriving DecidableEq

/-- `strftime("%H:%M")` of a local instant `t` in minutes. -/
def hourMinOf (t : Nat) : String := fmt2 (t / 60 % 24) ++ ":" ++ fmt2 (t % 60)

/-- The `weekday` column of `load_commute_time`:
`(df_dt.dt.weekday + 1).astype(str) + " - " + df_dt.dt.day_name()`. -/
def weekdayLabelOf (t : Nat) : String :=
  toString (weekdayOfDays (t / 1440) + 1) ++ " - " ++ dayName (weekdayOfDays (t / 1440))

/-- The row filter `df_dt.dt.minute.isin([0, 30])` of `load_commute_time`,
applied to the UTC instant of a row (the minute is taken after conversion
to `US/Eastern`). -/
def keepHalfHour (t : Nat) : Bool := toEastern t % 60 == 0 || toEastern t % 60 == 30

/-- The derived columns `load_commute_time` attaches to one retained row. -/
def mkSample (r : RawRow) : Sample :=
  { datetime := r.datetime, commute_time := r.commute_time,
    hour_min := hourMinOf (toEastern r.datetime),
    weekday := weekdayLabelOf (toEastern r.datetime) }

/-- The dataframe pipeline of `load_commute_time` after `pd.read_csv`:
parse timestamps as UTC, convert to `US/Eastern`, keep only rows whose
local minute is 0 or 30, and derive the `hour_min` and `weekday` columns. -/
def load_commute_time (rows : List RawRow) : List Sample :=
  (rows.filter (fun r => keepHalfHour r.datetime)).map mkSample

/-- Failure conditions of `pd.read_csv` relevant to `display_itinerary`:
a missing file raises `FileNotFoundError`, an empty file raises the
pandas empty-data parse error (a plain `Exception` to the handler). -/
inductive PdError
  | fileNotFound
  | emptyData
deriving DecidableEq

/-- `pd.read_csv` on a file modelled as `none` (file absent) or
`some rows` (file present with the given parsed rows; an empty file has no
columns to parse and raises). -/
def pd_read_csv : Option (List RawRow) → Except PdError (List RawRow)
  | none => .error .fileNotFound
  | some [] => .error .emptyData
  | some rows => .ok rows

/-- `load_commute_time` as called on a file path: `pd.read_csv` followed by
the dataframe pipeline.  Read or parse failures escape to the caller; the
function itself catches nothing. -/
def load_commute_time_file (file : Option (List RawRow)) : Except PdError (List Sample) :=
  (pd_read_csv file).map load_commute_time

/-- Lexicographic code-point comparison of character lists, the order both
Lean string literals and Python strings sort by. -/
def charListLe : List Char → List Char → Bool
  | [], _ => true
  | _ :: _, [] => false
  | a :: as, b :: bs =>
    if a.toNat < b.toNat then true
    else if b.toNat < a.toNat then false
    else charListLe as bs

/-- Lexicographic code-point comparison of strings. -/
def strLe (a b : String) : Bool := charListLe a.data b.data

/-- One row of the aggregated dataframe built in `display_itinerary`:
the group key `hour_min`, the group mean of `commute_time`, and the square
of the group sample standard deviation (`none` models the `NaN` pandas
produces for a one-element group; pandas `std` is `Real.sqrt` of this). -/
structure AggRow where
  hour_min : String
  commute_time : ℚ
  stdSq : Option ℚ
deriving DecidableEq

/-- The distinct group keys of `df.groupby("hour_min")`, in the ascending
order pandas iterates groups in. -/
def groupKeys (samples : List Sample) : List String :=
  List.insertionSort (fun a b => strLe a b) (samples.map (fun s => s.hour_min)).dedup

/-- The `commute_time` values of the group of key `k`. -/
def groupDurations (samples : List Sample) (k : String) : List ℚ :=
  (samples.filter (fun s => s.hour_min == k)).map (fun s => s.commute_time)

/-- Arithmetic mean, as computed by pandas `mean` on a nonempty group. -/
def listMean (xs : List ℚ) : ℚ := xs.sum / xs.length

/-- Sample variance (denominator `n - 1`), the square of pandas `std`
with its default `ddof=1`; `none` models the `NaN` returned when
`n - 1 = 0`.  The function is total: no division by zero can occur. -/
def sampleVar (xs : List ℚ) : Option ℚ :=
  if xs.length ≤ 1 then none
  else some ((xs.map (fun x => (x - listMean xs) ^ 2)).sum / ((xs.length : ℚ) - 1))

/-- `get_average_commute_time`: group by `hour_min`, mean of
`commute_time` per group, groups in ascending key order. -/
def get_average_commute_time (samples : List Sample) : List (String × ℚ) :=
  (groupKeys samples).map (fun k => (k, listMean (groupDurations samples k)))

/-- The aggregated table charted by `display_itinerary`: the rows of
`get_average_commute_time` with the standard-deviation column
`df.groupby("hour_min")["commute_time"].std()` attached (both groupbys
iterate the same ascending key order, so the columns align). -/
def aggregateByTime (samples : List Sample) : List AggRow :=
  (groupKeys samples).map (fun k =>
    { hour_min := k, commute_time := listMean (groupDurations samples k),
      stdSq := sampleVar (groupDurations samples k) })

/-- What `display_itinerary` renders for one itinerary file (header and
layout elided): the `FileNotFoundError` handler, the generic exception
handler, the empty-dataframe warning, or the charts of the aggregates. -/
inductive Rendered
  | fileNotFoundBanner
  | loadErrorBanner
  | noDataWarning
  | charts (avg : List AggRow)
deriving DecidableEq

/-- The data path of `display_itinerary`: load the file inside a handler;
a missing file renders the file-not-found banner, any other load failure
renders the generic error banner, an empty result renders a warning, and
otherwise the aggregates are charted. -/
def display_itinerary (file : Option (List RawRow)) : Rendered :=
  match load_commute_time_file file with
  | .error .fileNotFound => .fileNotFoundBanner
  | .error .emptyData => .loadErrorBanner
  | .ok samples => if samples.length = 0 then .noDataWarning else .charts (aggregateByTime samples)

/-- The sort key `metadata.get(csv_file, {}).get("id", csv_file)` used by
`order_csv_files_by_config`.  The metadata maps a file name to its
optional `id` field; a missing entry or a missing `id` falls back to the
file name itself. -/
def itinSortKey (metadata : List (String × Option String)) (f : String) : String :=
  match metadata.lookup f with
  | some (some i) => i
  | some none => f
  | none => f

/-- `order_csv_files_by_config`: with no metadata, `sorted(csv_files)`;
otherwise pair each file with its sort key, stable-sort by key, and return
the file names. -/
def order_csv_files_by_config (csv_files : List String)
    (metadata : List (String × Option String)) : List String :=
  if metadata.isEmpty then List.insertionSort (fun a b => strLe a b) csv_files
  else
    let files_with_keys := csv_files.map (fun f => (f, itinSortKey metadata f))
    (List.insertionSort (fun p q => strLe p.2 q.2) files_with_keys).map Prod.fst

theorem charListLe_total : ∀ as bs : List Char, charListLe as bs = true ∨ charListLe bs as = true := by
  intro as
  induction as with
  | nil => intro bs; left; rfl
  | cons a as ih =>
    intro bs
    cases bs with
    | nil => right; rfl
    | cons b bs =>
      rcases Nat.lt_trichotomy a.toNat b.toNat with h | h | h
      · left; simp [charListLe, h]
      · have h1 : ¬ a.toNat < b.toNat := by omega
        have h2 : ¬ b.toNat < a.toNat := by omega
        rcases ih bs with hc | hc
        · left; simp [charListLe, h1, h2, hc]
        · right; simp [charListLe, h1, h2, hc]
      · right; simp [charListLe, h]

theorem charListLe_trans : ∀ as bs cs : List Char,
    charListLe as bs = true → charListLe bs cs = true → charListLe as cs = true := by
  intro as
  induction as with
  | nil => intro bs cs _ _; rfl
  | cons a as ih =>
    intro bs cs hab hbc
    cases bs with
    | nil => simp [charListLe] at hab
    | cons b bs =>
      cases cs with
      | nil => simp [charListLe] at hbc
      | cons c cs =>
        rcases Nat.lt_trichotomy a.toNat b.toNat with h1 | h1 | h1
        · rcases Nat.lt_trichotomy b.toNat c.toNat with h2 | h2 | h2
          · have : a.toNat < c.toNat := by omega
            simp [charListLe, this]
          · have : a.toNat < c.toNat := by omega
            simp [charListLe, this]
          · have n1 : ¬ b.toNat < c.toNat := by omega
            simp [charListLe, n1, h2] at hbc
        · rcases Nat.lt_trichotomy b.toNat c.toNat with h2 | h2 | h2
          · have : a.toNat < c.toNat := by omega
            simp [charListLe, this]
          · have n1 : ¬ a.toNat < c.toNat := by omega
            have n2 : ¬ c.toNat < a.toNat := by omega
            have m1 : ¬ a.toNat < b.toNat := by omega
            have m2 : ¬ b.toNat < a.toNat := by omega
            have k1 : ¬ b.toNat < c.toNat := by omega
            have k2 : ¬ c.toNat < b.toNat := by omega
            simp [charListLe, m1, m2] at hab
            simp [charListLe, k1, k2] at hbc
            simp [charListLe, n1, n2]
            exact ih bs cs hab hbc
          · have n1 : ¬ b.toNat < c.toNat := by omega
            simp [charListLe, n1, h2] at hbc
        · have n1 : ¬ a.toNat < b.toNat := by omega
          simp [charListLe, n1, h1] at hab

instance : IsTotal String (fun a b => strLe a b = true) :=
  ⟨fun a b => charListLe_total a.data b.data⟩

instance : IsTrans String (fun a b => strLe a b = true) :=
  ⟨fun a b c => charListLe_trans a.data b.data c.data⟩

/-- Every sample of the loaded dataframe arises from a retained input row
that carries the same `datetime` and `commute_time` columns. -/
theorem mem_load_commute_time {rows : List RawRow} {s : Sample}
    (hs : s ∈ load_commute_time rows) :
    ∃ r ∈ rows, keepHalfHour r.datetime = true ∧ s = mkSample r := by
  rcases List.mem_map.mp hs with ⟨r, hr, heq⟩
  rcases List.mem_filter.mp hr with ⟨hmem, hkeep⟩
  exact ⟨r, hmem, hkeep, heq.symm⟩

/-- The mean column of the charted aggregate table is exactly the table
`get_average_commute_time` returns. -/
theorem aggregateByTime_fst (samples : List Sample) :
    (aggregateByTime samples).map (fun row => (row.hour_min, row.commute_time)) =
      get_average_commute_time samples := by
  simp [aggregateByTime, get_average_commute_time, List.map_map, Function.comp]

/-- Claim C1, counterexample: the valid one-row input whose timestamp
2024-06-05 12:15 UTC (08:15 US/Eastern) has minute component 15 is dropped
by the filter, so `load` returns 0 samples for 1 input row. -/
theorem load_count_counterexample :
    ¬ ((load_commute_time [⟨mkUTC 2024 6 5 12 15, 12⟩]).length =
        ([⟨mkUTC 2024 6 5 12 15, 12⟩] : List RawRow).length) := by decide

/-- Claim C1, as amended: for every valid CSV input, `load` produces one
Sample per input row whose converted minute component is 0 or 30, so the
number of Samples equals the number of such rows, not the total row
count. -/
theorem load_count_eq_halfHour_rows (rows : List RawRow) :
    (load_commute_time rows).length =
      rows.countP (fun r => toEastern r.datetime % 60 == 0 || toEastern r.datetime % 60 == 30) := by
  simp [load_commute_time, keepHalfHour, List.countP_eq_length_filter]

/-- Claim C2, counterexample: loading a nonexistent file (`none`) or an
empty file (`some []`) does not yield zero samples; both fail, and the
failure propagates out of `load_commute_time` to its caller. -/
theorem load_missing_or_empty_counterexample :
    load_commute_time_file none ≠ Except.ok [] ∧
    load_commute_time_file (some []) ≠ Except.ok [] :=
  ⟨fun h => Except.noConfusion h, fun h => Except.noConfusion h⟩

/-- Claim C2, as amended: loading a nonexistent file fails with the
file-not-found condition and an empty file fails with the empty-data parse
condition; `display_itinerary` catches either failure and renders an error
banner (producing no samples and no aggregate rows) instead of crashing —
not an empty chart. -/
theorem display_itinerary_error_banners :
    display_itinerary none = Rendered.fileNotFoundBanner ∧
    display_itinerary (some []) = Rendered.loadErrorBanner ∧
    load_commute_time_file none = Except.error PdError.fileNotFound ∧
    load_commute_time_file (some []) = Except.error PdError.emptyData :=
  ⟨rfl, rfl, rfl, rfl⟩

/-- Claim C3: `load` retains exactly the rows whose converted minute
component is 0 or 30; on the four quarter-hour inputs 08:00, 08:15, 08:30,
08:45 (US/Eastern; 12:00-12:45 UTC of 2024-06-05) exactly the 08:00 and
08:30 samples survive. -/
theorem load_halfhour_filter :
    (∀ (rows : List RawRow) (r : RawRow), r ∈ rows →
      (mkSample r ∈ load_commute_time rows ↔
        toEastern r.datetime % 60 = 0 ∨ toEastern r.datetime % 60 = 30)) ∧
    load_commute_time [⟨mkUTC 2024 6 5 12 0, 10⟩, ⟨mkUTC 2024 6 5 12 15, 12⟩,
        ⟨mkUTC 2024 6 5 12 30, 9⟩, ⟨mkUTC 2024 6 5 12 45, 11⟩] =
      [mkSample ⟨mkUTC 2024 6 5 12 0, 10⟩, mkSample ⟨mkUTC 2024 6 5 12 30, 9⟩] := by
  constructor
  · intro rows r hr
    constructor
    · intro hmem
      rcases mem_load_commute_time hmem with ⟨r', _, hkeep, heq⟩
      have hdt : r'.datetime = r.datetime := by
        have := congrArg Sample.datetime heq
        simpa [mkSample] using this.symm
      rw [hdt] at hkeep
      simpa [keepHalfHour] using hkeep
    · intro hmin
      apply List.mem_map_of_mem mkSample
      apply List.mem_filter.mpr
      refine ⟨hr, ?_⟩
      simpa [keepHalfHour] using hmin
  · decide

/-- Claim C3, witness: the 08:30 sample is indeed in the output. -/
theorem load_halfhour_filter_witness :
    mkSample ⟨mkUTC 2024 6 5 12 30, 9⟩ ∈ load_commute_time [⟨mkUTC 2024 6 5 12 0, 10⟩,
      ⟨mkUTC 2024 6 5 12 15, 12⟩, ⟨mkUTC 2024 6 5 12 30, 9⟩, ⟨mkUTC 2024 6 5 12 45, 11⟩] :=
  (load_halfhour_filter.1 _ _ (by decide)).mpr (by decide)

/-- A sample carrying only the columns aggregation reads. -/
def sampleAt (h : String) (d : ℚ) : Sample :=
  { datetime := 0, commute_time := d, hour_min := h, weekday := "" }

/-- Claim C4: aggregating the samples (08:00, 10), (08:00, 20), (08:30, 5)
yields the group 08:00 with mean 15 and standard deviation
`Real.sqrt 50 = 7.071...` (squared deviation 50), and the group 08:30 with
mean 5 and undefined standard deviation, in that order. -/
theorem aggregateByTime_spec_example :
    aggregateByTime [sampleAt "08:00" 10, sampleAt "08:00" 20, sampleAt "08:30" 5] =
      [⟨"08:00", 15, some 50⟩, ⟨"08:30", 5, none⟩] ∧
    (7.071 : ℝ) < Real.sqrt 50 ∧ Real.sqrt 50 < 7.072 := by
  refine ⟨?_, ?_, ?_⟩
  · have hk : groupKeys [sampleAt "08:00" 10, sampleAt "08:00" 20, sampleAt "08:30" 5] =
        ["08:00", "08:30"] := by decide
    have h1 : groupDurations [sampleAt "08:00" 10, sampleAt "08:00" 20, sampleAt "08:30" 5]
        "08:00" = [10, 20] := by decide
    have h2 : groupDurations [sampleAt "08:00" 10, sampleAt "08:00" 20, sampleAt "08:30" 5]
        "08:30" = [5] := by decide
    rw [aggregateByTime, hk]
    simp only [List.map_cons, List.map_nil, h1, h2]
    norm_num [listMean, sampleVar]
  · rw [show (7.071 : ℝ) = Real.sqrt (7.071 ^ 2) by
      rw [Real.sqrt_sq]
      norm_num]
    apply Real.sqrt_lt_sqrt
    · positivity
    · norm_num
  · rw [show (7.072 : ℝ) = Real.sqrt (7.072 ^ 2) by
      rw [Real.sqrt_sq]
      norm_num]
    apply Real.sqrt_lt_sqrt
    · norm_num
    · norm_num

/-- Claim C5: a group of size 1 gets an undefined (`NaN`) standard
deviation, and the (total) variance computation cannot fail. -/
theorem singleton_group_std_none (samples : List Sample) (row : AggRow)
    (hrow : row ∈ aggregateByTime samples)
    (hlen : (groupDurations samples row.hour_min).length = 1) :
    row.stdSq = none := by
  obtain ⟨k, _, rfl⟩ := List.mem_map.mp hrow
  simp only at hlen
  simp [sampleVar, hlen]

/-- Claim C5, witness: the single-sample group 08:30 has `none` in the
standard-deviation column. -/
theorem singleton_group_std_none_witness :
    ∃ row ∈ aggregateByTime [sampleAt "08:30" 5], row.stdSq = none := by
  have hk : groupKeys [sampleAt "08:30" 5] = ["08:30"] := by decide
  have hd : groupDurations [sampleAt "08:30" 5] "08:30" = [5] := by decide
  have hagg : aggregateByTime [sampleAt "08:30" 5] = [⟨"08:30", 5, none⟩] := by
    rw [aggregateByTime, hk]
    simp only [List.map_cons, List.map_nil, hd]
    norm_num [listMean, sampleVar]
  refine ⟨⟨"08:30", 5, none⟩, ?_, ?_⟩
  · rw [hagg]
    exact List.mem_singleton.mpr rfl
  · refine singleton_group_std_none [sampleAt "08:30" 5] ⟨"08:30", 5, none⟩ ?_ (by decide)
    rw [hagg]
    exact List.mem_singleton.mpr rfl

/-- Claim C6: the aggregate rows are sorted ascending by the
`hour_min` key (lexicographic code-point order), whatever the input
order. -/
theorem aggregateByTime_sorted (samples : List Sample) :
    List.Sorted (fun a b => strLe a b = true) ((aggregateByTime samples).map AggRow.hour_min) := by
  have h : (aggregateByTime samples).map AggRow.hour_min = groupKeys samples := by
    rw [aggregateByTime, List.map_map]
    exact List.map_id (groupKeys samples)
  rw [h]
  exact List.sorted_insertionSort _ _

/-- Claim C7: every loaded sample has a weekday label of the form
`"{1-7} - {WeekdayName}"` with 1 = Monday, and a sample whose converted
timestamp falls on a Wednesday (pandas weekday number 2) is labelled
exactly `"3 - Wednesday"`. -/
theorem weekday_label_form (rows : List RawRow) (s : Sample)
    (hs : s ∈ load_commute_time rows) :
    (∃ w, w < 7 ∧ s.weekday = toString (w + 1) ++ " - " ++ dayName w) ∧
    (weekdayOfDays (toEastern s.datetime / 1440) = 2 → s.weekday = "3 - Wednesday") := by
  rcases mem_load_commute_time hs with ⟨r, _, _, rfl⟩
  constructor
  · exact ⟨weekdayOfDays (toEastern r.datetime / 1440), Nat.mod_lt _ (by omega), rfl⟩
  · intro h2
    have h2' : weekdayOfDays (toEastern r.datetime / 1440) = 2 := h2
    show weekdayLabelOf (toEastern r.datetime) = "3 - Wednesday"
    rw [weekdayLabelOf, h2']
    decide

/-- Claim C7, witness: 2024-06-05 12:00 UTC is 08:00 US/Eastern on a
Wednesday, and its loaded sample is labelled `"3 - Wednesday"`. -/
theorem weekday_label_form_witness :
    (mkSample ⟨mkUTC 2024 6 5 12 0, 10⟩).weekday = "3 - Wednesday" :=
  (weekday_label_form [⟨mkUTC 2024 6 5 12 0, 10⟩] _ (by decide)).2 (by decide)

/-- Claim C8: the `hour_min` column of every loaded sample is a
5-character zero-padded `"HH:MM"` string with hour below 24 and minute
below 60. -/
theorem hour_min_format (rows : List RawRow) (s : Sample)
    (hs : s ∈ load_commute_time rows) :
    s.hour_min.length = 5 ∧
    ∃ h m, h < 24 ∧ m < 60 ∧ s.hour_min = fmt2 h ++ ":" ++ fmt2 m := by
  rcases mem_load_commute_time hs with ⟨r, _, _, rfl⟩
  have hfmt : ∀ n, n < 60 → (fmt2 n).length = 2 := by decide
  have hh : toEastern r.datetime / 60 % 24 < 24 := Nat.mod_lt _ (by omega)
  have hm : toEastern r.datetime % 60 < 60 := Nat.mod_lt _ (by omega)
  constructor
  · show (hourMinOf (toEastern r.datetime)).length = 5
    rw [hourMinOf, String.length_append, String.length_append,
      hfmt _ (by omega), hfmt _ hm]
    rfl
  · exact ⟨_, _, hh, hm, rfl⟩

/-- Claim C8, witness: the loaded sample of 2024-06-05 12:00 UTC has a
5-character `hour_min`. -/
theorem hour_min_format_witness :
    (mkSample ⟨mkUTC 2024 6 5 12 0, 10⟩).hour_min.length = 5 :=
  (hour_min_format [⟨mkUTC 2024 6 5 12 0, 10⟩] _ (by decide)).1

/-- Claim C9: with an empty metadata mapping the result is the file names
in ascending lexicographic order; a file whose metadata declares an `id`
is keyed by that `id`, and a file with no metadata entry is keyed by its
own file name. -/
theorem order_csv_files_sort_key_spec (csv_files : List String)
    (metadata : List (String × Option String)) :
    (metadata = [] →
      order_csv_files_by_config csv_files metadata =
        List.insertionSort (fun a b => strLe a b) csv_files) ∧
    (∀ f i, metadata.lookup f = some (some i) → itinSortKey metadata f = i) ∧
    (∀ f, metadata.lookup f = none → itinSortKey metadata f = f) := by
  refine ⟨?_, ?_, ?_⟩
  · rintro rfl
    simp [order_csv_files_by_config]
  · intro f i h
    simp [itinSortKey, h]
  · intro f h
    simp [itinSortKey, h]

/-- Claim C9, witness: two concrete files sort lexicographically under
empty metadata, and a file absent from the metadata keys by its own
name. -/
theorem order_csv_files_sort_key_spec_witness :
    order_csv_files_by_config ["to-b.csv", "to-a.csv"] [] = ["to-a.csv", "to-b.csv"] ∧
    itinSortKey [("to-a.csv", some "2")] "to-b.csv" = "to-b.csv" := by
  constructor
  · rw [(order_csv_files_sort_key_spec ["to-b.csv", "to-a.csv"] []).1 rfl]
    decide
  · exact (order_csv_files_sort_key_spec ["to-b.csv", "to-a.csv"]
      [("to-a.csv", some "2")]).2.2 "to-b.csv" (by decide)

/-- Claim C10: `order_csv_files_by_config` returns a permutation of its
input file list, for every metadata mapping. -/
theorem order_csv_files_perm (csv_files : List String)
    (metadata : List (String × Option String)) :
    (order_csv_files_by_config csv_files metadata).Perm csv_files := by
  rw [order_csv_files_by_config]
  by_cases h : metadata.isEmpty
  · simp only [h, if_true]
    exact List.perm_insertionSort _ _
  · simp only [h, if_false]
    refine ((List.perm_insertionSort _ _).map Prod.fst).trans ?_
    rw [List.map_map]
    have hid : List.map (Prod.fst ∘ fun f => (f, itinSortKey metadata f)) csv_files = csv_files :=
      List.map_id csv_files
    rw [hid]
